import Mathlib

/-!
Verification of the twilight-andesite node connection subsystem.

The Rust source (src/model.rs, src/node.rs) is shallowly embedded: pure
functions become Lean functions, the connection worker's event loop becomes an
explicit step function on a state record, machine integers become `Nat`/`Int`,
and `f64` values that are only carried verbatim are modelled as rationals with
decidable equality.  Fallible code returns `Except`/`Option`.
-/

namespace TwilightAndesite

/-! ## Backoff (src/node.rs, `backoff`)

The source loops forever: each iteration builds a connect request and attempts
`connect_async`.  We embed the loop as a recursion over a finite schedule of
attempt outcomes (one entry per attempt the environment would answer); `none`
in the result means the schedule was exhausted with the loop still running. -/

/-- Outcome of one `connect_async` attempt, as classified by the source:
success, an HTTP 401 (`StatusCode::UNAUTHORIZED`) error, or any other
tungstenite error. -/
inductive ConnectOutcome where
  | ok
  | authFailure
  | otherFailure
deriving DecidableEq, Repr

/-- Result of the backoff loop: connected, the `NodeError::Unauthorized`
return, or the terminal `NodeError::Connecting` return. -/
inductive BackoffResult where
  | connected
  | unauthorized
  | connecting
deriving DecidableEq, Repr

/-- One step per scheduled attempt, mirroring the body of `backoff`'s `loop`:
on success return the stream; on a 401 return `Unauthorized`; otherwise, if
`seconds > 64` return `Connecting`, else sleep `seconds`, double it, and
continue.  Returns the loop's result (`none` when the schedule ran out) and
the list of sleep durations performed, in order. -/
def backoffAux : List ConnectOutcome → Nat → Option BackoffResult × List Nat
  | [], _ => (none, [])
  | outcome :: rest, seconds =>
    match outcome with
    | .ok => (some .connected, [])
    | .authFailure => (some .unauthorized, [])
    | .otherFailure =>
      if seconds > 64 then
        (some .connecting, [])
      else
        let next := backoffAux rest (seconds * 2)
        (next.1, seconds :: next.2)

/-- `backoff` starts its counter at `seconds = 1`. -/
def backoff (outcomes : List ConnectOutcome) : Option BackoffResult × List Nat :=
  backoffAux outcomes 1

/-! ## JSON values

serde_json's text layer (`to_string` / `from_str`) is an external primitive
(the spec scopes out "JSON parsing primitives themselves"); it is a faithful
bijection between JSON text and JSON values, so the wire form is modelled at
the value level.  JSON numbers are modelled as rationals; `f64` fields of the
protocol structs are only carried verbatim, never computed with, so they are
likewise modelled as rationals with decidable equality. -/

inductive Json where
  | null
  | bool (b : Bool)
  | num (q : ℚ)
  | str (s : String)
  | arr (elems : List Json)
  | obj (fields : List (String × Json))

/-- Field access on a JSON object (serde's derived deserializers ignore
unknown fields and fail on a missing required field). -/
def Json.getField? (j : Json) (name : String) : Option Json :=
  match j with
  | .obj fields => fields.lookup name
  | _ => none

def Json.asStr? : Json → Option String
  | .str s => some s
  | _ => none

def Json.asBool? : Json → Option Bool
  | .bool b => some b
  | _ => none

def Json.asNum? : Json → Option ℚ
  | .num q => some q
  | _ => none

/-- An unsigned integer field (`u64`): a JSON number with denominator 1 and a
nonnegative numerator. -/
def Json.asNat? : Json → Option Nat
  | .num q => if q.den = 1 ∧ 0 ≤ q.num then some q.num.toNat else none
  | _ => none

/-- A signed integer field (`i64`). -/
def Json.asInt? : Json → Option Int
  | .num q => if q.den = 1 then some q.num else none
  | _ => none

def Json.asArr? : Json → Option (List Json)
  | .arr elems => some elems
  | _ => none

/-- serde semantics for an `Option<T>` struct field: a missing field and an
explicit `null` both decode to `None`; any other value must decode as `T`. -/
def parseOptField {α : Type} (parse : Json → Option α) : Option Json → Option (Option α)
  | none => some none
  | some .null => some none
  | some j => (parse j).map some

/-- Serialization of a field under `skip_serializing_if = "Option::is_none"`
(or `serde_with::skip_serializing_none`): emitted only when present. -/
def optField (name : String) (j : Option Json) : List (String × Json) :=
  match j with
  | some v => [(name, v)]
  | none => []

/-! ## Protocol message model (src/model.rs)

Discord snowflake ids (`GuildId`, `UserId` wrap `u64`) are modelled as `Nat`;
their JSON form is their numeric value.  (No claim depends on the numeral
representation: every variant encodes its `guildId` the same way, so variant
shapes are unaffected.) -/

abbrev GuildId := Nat

def guildIdToJson (g : GuildId) : Json := .num (g : ℚ)

def guildIdFromJson? (j : Json) : Option GuildId := j.asNat?

/-- The `Opcode` enum.  `rename_all = "camelCase"` plus the explicit
`rename = "get-player"` give the wire names below. -/
inductive Opcode where
  | voiceUpdate
  | getPlayer
  | play
  | stop
  | update
  | destroy
  | playerUpdate
  | event
  | stats
deriving DecidableEq, Repr

def Opcode.wireName : Opcode → String
  | .voiceUpdate => "voiceUpdate"
  | .getPlayer => "get-player"
  | .play => "play"
  | .stop => "stop"
  | .update => "update"
  | .destroy => "destroy"
  | .playerUpdate => "playerUpdate"
  | .event => "event"
  | .stats => "stats"

def Opcode.toJson (op : Opcode) : Json := .str op.wireName

def Opcode.fromJson? (j : Json) : Option Opcode :=
  match j with
  | .str s =>
    if s = "voiceUpdate" then some .voiceUpdate
    else if s = "get-player" then some .getPlayer
    else if s = "play" then some .play
    else if s = "stop" then some .stop
    else if s = "update" then some .update
    else if s = "destroy" then some .destroy
    else if s = "playerUpdate" then some .playerUpdate
    else if s = "event" then some .event
    else if s = "stats" then some .stats
    else none
  | _ => none

/-- `SlimVoiceServerUpdate` (snake_case field names on the wire; `endpoint`
has no skip attribute, so `None` serializes as an explicit `null`). -/
structure SlimVoiceServerUpdate where
  endpoint : Option String
  token : String
deriving DecidableEq, Repr

def SlimVoiceServerUpdate.toJson (u : SlimVoiceServerUpdate) : Json :=
  .obj [("endpoint", match u.endpoint with | some e => .str e | none => .null),
        ("token", .str u.token)]

def SlimVoiceServerUpdate.fromJson? (j : Json) : Option SlimVoiceServerUpdate := do
  let endpoint ← parseOptField Json.asStr? (j.getField? "endpoint")
  let token ← j.getField? "token" >>= Json.asStr?
  pure { endpoint, token }

structure VoiceUpdate where
  op : Opcode
  session_id : String
  guild_id : GuildId
  event : SlimVoiceServerUpdate
deriving DecidableEq, Repr

structure GetPlayer where
  op : Opcode
  guild_id : GuildId
deriving DecidableEq, Repr

structure Play where
  op : Opcode
  guild_id : GuildId
  track : String
  start_time : Option Nat
  end_time : Option Nat
  no_replace : Bool
deriving DecidableEq, Repr

structure Stop where
  op : Opcode
  guild_id : GuildId
deriving DecidableEq, Repr

structure Karaoke where
  level : ℚ
  mono_level : ℚ
  filter_band : ℚ
  filter_width : ℚ
  enabled : Bool
deriving DecidableEq, Repr

structure Timescale where
  speed : ℚ
  pitch : ℚ
  rate : ℚ
  enabled : Bool
deriving DecidableEq, Repr

structure Tremolo where
  frequency : ℚ
  depth : ℚ
  enabled : Bool
deriving DecidableEq, Repr

structure Vibrato where
  frequency : ℚ
  depth : ℚ
  enabled : Bool
deriving DecidableEq, Repr

structure EqualizerBand where
  band : Int
  gain : ℚ
deriving DecidableEq, Repr

structure Equalizer where
  bands : List EqualizerBand
  enabled : Bool
deriving DecidableEq, Repr

/-- `Filters` (under `skip_serializing_none`; the `volume` field carries
`Option<()>` and is `serde(skip)` in both directions). -/
structure Filters where
  karaoke : Option Karaoke
  timescale : Option Timescale
  tremolo : Option Tremolo
  vibrato : Option Vibrato
  equalizer : Option Equalizer
  volume : Option Unit
deriving DecidableEq, Repr

structure Update where
  op : Opcode
  guild_id : GuildId
  pause : Option Bool
  position : Option Int
  volume : Option Int
  filters : Option Filters
deriving DecidableEq, Repr

structure Destroy where
  op : Opcode
  guild_id : GuildId
deriving DecidableEq, Repr

/-- The untagged `OutgoingEvent` enum, variants in declaration order. -/
inductive OutgoingEvent where
  | voiceUpdate (data : VoiceUpdate)
  | getPlayer (data : GetPlayer)
  | play (data : Play)
  | stop (data : Stop)
  | update (data : Update)
  | destroy (data : Destroy)
deriving DecidableEq, Repr

/-- `OutgoingEvent::op`: returns the `op` field stored in the payload. -/
def OutgoingEvent.op : OutgoingEvent → Opcode
  | .voiceUpdate data => data.op
  | .getPlayer data => data.op
  | .play data => data.op
  | .stop data => data.op
  | .update data => data.op
  | .destroy data => data.op

/-- `OutgoingEvent::guild_id`: returns the `guild_id` field of the payload. -/
def OutgoingEvent.guild_id : OutgoingEvent → GuildId
  | .voiceUpdate data => data.guild_id
  | .getPlayer data => data.guild_id
  | .play data => data.guild_id
  | .stop data => data.guild_id
  | .update data => data.guild_id
  | .destroy data => data.guild_id

/-! ### Constructors (the `new` impls of src/model.rs) -/

def VoiceUpdate.new (guild_id : GuildId) (session_id : String)
    (event : SlimVoiceServerUpdate) : VoiceUpdate :=
  { op := .voiceUpdate, session_id, guild_id, event }

def GetPlayer.new (guild_id : GuildId) : GetPlayer :=
  { op := .getPlayer, guild_id }

def Play.new_complex (guild_id : GuildId) (track : String)
    (start_time : Option Nat) (end_time : Option Nat) (no_replace : Bool) : Play :=
  { op := .play, guild_id, track, start_time, end_time, no_replace }

def Play.new (guild_id : GuildId) (track : String) : Play :=
  Play.new_complex guild_id track none none false

def Stop.new (guild_id : GuildId) : Stop :=
  { guild_id, op := .stop }

def Update.new (guild_id : GuildId) (pause : Option Bool) (position : Option Int)
    (volume : Option Int) (filters : Option Filters) : Update :=
  { op := .update, guild_id, pause, position, volume, filters }

def Destroy.new (guild_id : GuildId) : Destroy :=
  { op := .destroy, guild_id }

/-! ### Serialization (derived `Serialize`, camelCase keys, declaration-order
fields, `Option` fields under a skip attribute omitted when `None`) -/

def Karaoke.toJson (k : Karaoke) : Json :=
  .obj [("level", .num k.level), ("monoLevel", .num k.mono_level),
        ("filterBand", .num k.filter_band), ("filterWidth", .num k.filter_width)]

def Timescale.toJson (t : Timescale) : Json :=
  .obj [("speed", .num t.speed), ("pitch", .num t.pitch), ("rate", .num t.rate)]

def Tremolo.toJson (t : Tremolo) : Json :=
  .obj [("frequency", .num t.frequency), ("depth", .num t.depth)]

def Vibrato.toJson (v : Vibrato) : Json :=
  .obj [("frequency", .num v.frequency), ("depth", .num v.depth)]

def EqualizerBand.toJson (b : EqualizerBand) : Json :=
  .obj [("band", .num (b.band : ℚ)), ("gain", .num b.gain)]

def Equalizer.toJson (e : Equalizer) : Json :=
  .obj [("bands", .arr (e.bands.map EqualizerBand.toJson))]

def Filters.toJson (f : Filters) : Json :=
  .obj (optField "karaoke" (f.karaoke.map Karaoke.toJson)
    ++ optField "timescale" (f.timescale.map Timescale.toJson)
    ++ optField "tremolo" (f.tremolo.map Tremolo.toJson)
    ++ optField "vibrato" (f.vibrato.map Vibrato.toJson)
    ++ optField "equalizer" (f.equalizer.map Equalizer.toJson))

def VoiceUpdate.toJson (v : VoiceUpdate) : Json :=
  .obj [("op", v.op.toJson), ("sessionId", .str v.session_id),
        ("guildId", guildIdToJson v.guild_id), ("event", v.event.toJson)]

def GetPlayer.toJson (g : GetPlayer) : Json :=
  .obj [("op", g.op.toJson), ("guildId", guildIdToJson g.guild_id)]

def Play.toJson (p : Play) : Json :=
  .obj ([("op", p.op.toJson), ("guildId", guildIdToJson p.guild_id),
         ("track", .str p.track)]
    ++ optField "startTime" (p.start_time.map fun t => .num (t : ℚ))
    ++ optField "endTime" (p.end_time.map fun t => .num (t : ℚ))
    ++ [("noReplace", .bool p.no_replace)])

def Stop.toJson (s : Stop) : Json :=
  .obj [("op", s.op.toJson), ("guildId", guildIdToJson s.guild_id)]

def Update.toJson (u : Update) : Json :=
  .obj ([("op", u.op.toJson), ("guildId", guildIdToJson u.guild_id)]
    ++ optField "pause" (u.pause.map Json.bool)
    ++ optField "position" (u.position.map fun p => .num (p : ℚ))
    ++ optField "volume" (u.volume.map fun v => .num (v : ℚ))
    ++ optField "filters" (u.filters.map Filters.toJson))

def Destroy.toJson (d : Destroy) : Json :=
  .obj [("op", d.op.toJson), ("guildId", guildIdToJson d.guild_id)]

def OutgoingEvent.toJson : OutgoingEvent → Json
  | .voiceUpdate data => data.toJson
  | .getPlayer data => data.toJson
  | .play data => data.toJson
  | .stop data => data.toJson
  | .update data => data.toJson
  | .destroy data => data.toJson

/-! ### Deserialization (derived `Deserialize`: a struct decodes from an
object having every required field at the right type, ignoring unknown
fields; `serde(skip)` fields take their default value) -/

def Karaoke.fromJson? (j : Json) : Option Karaoke := do
  let level ← j.getField? "level" >>= Json.asNum?
  let mono_level ← j.getField? "monoLevel" >>= Json.asNum?
  let filter_band ← j.getField? "filterBand" >>= Json.asNum?
  let filter_width ← j.getField? "filterWidth" >>= Json.asNum?
  pure { level, mono_level, filter_band, filter_width, enabled := false }

def Timescale.fromJson? (j : Json) : Option Timescale := do
  let speed ← j.getField? "speed" >>= Json.asNum?
  let pitch ← j.getField? "pitch" >>= Json.asNum?
  let rate ← j.getField? "rate" >>= Json.asNum?
  pure { speed, pitch, rate, enabled := false }

def Tremolo.fromJson? (j : Json) : Option Tremolo := do
  let frequency ← j.getField? "frequency" >>= Json.asNum?
  let depth ← j.getField? "depth" >>= Json.asNum?
  pure { frequency, depth, enabled := false }

def Vibrato.fromJson? (j : Json) : Option Vibrato := do
  let frequency ← j.getField? "frequency" >>= Json.asNum?
  let depth ← j.getField? "depth" >>= Json.asNum?
  pure { frequency, depth, enabled := false }

def EqualizerBand.fromJson? (j : Json) : Option EqualizerBand := do
  let band ← j.getField? "band" >>= Json.asInt?
  let gain ← j.getField? "gain" >>= Json.asNum?
  pure { band, gain }

def Equalizer.fromJson? (j : Json) : Option Equalizer := do
  let bandsJson ← j.getField? "bands" >>= Json.asArr?
  let bands ← bandsJson.mapM EqualizerBand.fromJson?
  pure { bands, enabled := false }

def Filters.fromJson? : Json → Option Filters
  | .obj fields => do
    let karaoke ← parseOptField Karaoke.fromJson? ((Json.obj fields).getField? "karaoke")
    let timescale ← parseOptField Timescale.fromJson? ((Json.obj fields).getField? "timescale")
    let tremolo ← parseOptField Tremolo.fromJson? ((Json.obj fields).getField? "tremolo")
    let vibrato ← parseOptField Vibrato.fromJson? ((Json.obj fields).getField? "vibrato")
    let equalizer ← parseOptField Equalizer.fromJson? ((Json.obj fields).getField? "equalizer")
    pure { karaoke, timescale, tremolo, vibrato, equalizer, volume := none }
  | _ => none

def VoiceUpdate.fromJson? (j : Json) : Option VoiceUpdate := do
  let op ← j.getField? "op" >>= Opcode.fromJson?
  let session_id ← j.getField? "sessionId" >>= Json.asStr?
  let guild_id ← j.getField? "guildId" >>= guildIdFromJson?
  let event ← j.getField? "event" >>= SlimVoiceServerUpdate.fromJson?
  pure { op, session_id, guild_id, event }

def GetPlayer.fromJson? (j : Json) : Option GetPlayer := do
  let op ← j.getField? "op" >>= Opcode.fromJson?
  let guild_id ← j.getField? "guildId" >>= guildIdFromJson?
  pure { op, guild_id }

def Play.fromJson? (j : Json) : Option Play := do
  let op ← j.getField? "op" >>= Opcode.fromJson?
  let guild_id ← j.getField? "guildId" >>= guildIdFromJson?
  let track ← j.getField? "track" >>= Json.asStr?
  let start_time ← parseOptField Json.asNat? (j.getField? "startTime")
  let end_time ← parseOptField Json.asNat? (j.getField? "endTime")
  let no_replace ← j.getField? "noReplace" >>= Json.asBool?
  pure { op, guild_id, track, start_time, end_time, no_replace }

def Stop.fromJson? (j : Json) : Option Stop := do
  let op ← j.getField? "op" >>= Opcode.fromJson?
  let guild_id ← j.getField? "guildId" >>= guildIdFromJson?
  pure { op, guild_id }

def Update.fromJson? (j : Json) : Option Update := do
  let op ← j.getField? "op" >>= Opcode.fromJson?
  let guild_id ← j.getField? "guildId" >>= guildIdFromJson?
  let pause ← parseOptField Json.asBool? (j.getField? "pause")
  let position ← parseOptField Json.asInt? (j.getField? "position")
  let volume ← parseOptField Json.asInt? (j.getField? "volume")
  let filters ← parseOptField Filters.fromJson? (j.getField? "filters")
  pure { op, guild_id, pause, position, volume, filters }

def Destroy.fromJson? (j : Json) : Option Destroy := do
  let op ← j.getField? "op" >>= Opcode.fromJson?
  let guild_id ← j.getField? "guildId" >>= guildIdFromJson?
  pure { op, guild_id }

/-- The untagged deserializer for `OutgoingEvent`: serde tries each variant's
shape in declaration order and keeps the first success. -/
def OutgoingEvent.fromJson? (j : Json) : Option OutgoingEvent :=
  (VoiceUpdate.fromJson? j).map OutgoingEvent.voiceUpdate
    <|> (GetPlayer.fromJson? j).map OutgoingEvent.getPlayer
    <|> (Play.fromJson? j).map OutgoingEvent.play
    <|> (Stop.fromJson? j).map OutgoingEvent.stop
    <|> (Update.fromJson? j).map OutgoingEvent.update
    <|> (Destroy.fromJson? j).map OutgoingEvent.destroy

/-! ## Incoming events (src/model.rs, `incoming`) -/

/-- The `type` discriminant of track/lifecycle events. -/
inductive TrackEventType where
  | start
  | «end»
  | exception
  | stuck
  | websocketClose
  | playerDestroy
deriving DecidableEq, Repr

/-- Modelled from the spec: `crate::http::Error` (the payload of a track
exception) lives outside src; no claim inspects it, so it is carried as a
unit record. -/
structure HttpErrorData where
deriving DecidableEq, Repr

/-- `PlayerUpdateState`: the `mixer`, `mixer_enabled` and `frame` fields are
`serde(skip)` `Option<()>` values, always `None`. -/
structure PlayerUpdateState where
  time : Int
  position : Option Int
  paused : Bool
  volume : Int
  filters : Filters
  destroyed : Option Bool
  mixer : Option Unit
  mixer_enabled : Option Unit
  frame : Option Unit
deriving DecidableEq, Repr

structure PlayerUpdate where
  op : Opcode
  guild_id : GuildId
  user_id : Option Unit
  state : PlayerUpdateState
deriving DecidableEq, Repr

structure StatsMemory where
  allocated : Nat
  free : Nat
  reservable : Nat
  used : Nat
deriving DecidableEq, Repr

/-- `StatsCpu`: the two load fields are `f64`, modelled as rationals. -/
structure StatsCpu where
  cores : Nat
  lavalink_load : ℚ
  system_load : ℚ
deriving DecidableEq, Repr

structure StatsFrames where
  sent : Int
  nulled : Int
  deficit : Int
deriving DecidableEq, Repr

structure Stats where
  op : Opcode
  players : Nat
  playing_players : Nat
  uptime : Nat
  memory : StatsMemory
  cpu : StatsCpu
  frames : Option StatsFrames
deriving DecidableEq, Repr

structure TrackStart where
  op : Opcode
  kind : TrackEventType
  guild_id : GuildId
  user_id : Option Unit
  track : String
deriving DecidableEq, Repr

structure TrackEnd where
  op : Opcode
  kind : TrackEventType
  guild_id : GuildId
  user_id : Option Unit
  track : String
  reason : String
deriving DecidableEq, Repr

structure TrackException where
  op : Opcode
  kind : TrackEventType
  guild_id : GuildId
  user_id : Option Unit
  track : String
  error : String
  exception : HttpErrorData
deriving DecidableEq, Repr

structure TrackStuck where
  op : Opcode
  kind : TrackEventType
  guild_id : GuildId
  user_id : Option Unit
  track : String
  threshold_ms : Int
deriving DecidableEq, Repr

structure WebsocketClose where
  op : Opcode
  kind : TrackEventType
  guild_id : GuildId
  user_id : Option Unit
  reason : Option String
  code : Int
  by_remote : Bool
deriving DecidableEq, Repr

structure PlayerDestroy where
  op : Opcode
  kind : TrackEventType
  guild_id : GuildId
  user_id : Option Unit
  cleanup : Bool
deriving DecidableEq, Repr

/-- The untagged `IncomingEvent` enum, variants in declaration order. -/
inductive IncomingEvent where
  | playerUpdate (data : PlayerUpdate)
  | stats (data : Stats)
  | trackEnd (data : TrackEnd)
  | trackStart (data : TrackStart)
  | trackException (data : TrackException)
  | trackStuck (data : TrackStuck)
  | websocketClose (data : WebsocketClose)
  | playerDestroy (data : PlayerDestroy)
deriving DecidableEq, Repr

/-! ## Node configuration and handshake (src/node.rs) -/

abbrev UserId := Nat

/-- `Resume`: timeout plus the optional connection id to resume as. -/
structure Resume where
  timeout : Nat
  connection_id : Option Nat
deriving DecidableEq, Repr

/-- `NodeConfig` (immutable; `address` abstracts the socket address). -/
structure NodeConfig where
  user_id : UserId
  address : String
  authorization : String
  resume : Option Resume
deriving DecidableEq, Repr

/-- The error variants of `NodeError`, by kind. -/
inductive NodeErrorKind where
  | buildingConnectionRequest
  | executingRequest
  | parsingResponseHeader
  | parsingInt
  | connecting
  | serializingMessage
  | unauthorized
deriving DecidableEq, Repr

/-- The headers of the websocket handshake request built by `connect_request`
(src/node.rs): `Authorization`, `User-Id` and, exactly when the config holds a
resume policy with a stored connection id, `Andesite-Resume-Id` carrying that
stored id.  The URL and empty body are irrelevant to the claims and omitted. -/
def connect_request (state : NodeConfig) : List (String × String) :=
  let base := [("Authorization", state.authorization), ("User-Id", toString state.user_id)]
  match state.resume with
  | some resume =>
    match resume.connection_id with
    | some connection_id => base ++ [("Andesite-Resume-Id", toString connection_id)]
    | none => base
  | none => base

/-- The connection id computed in `Node::connect` from the (already parsed)
`andesite-connection-id` response header: the reported id plus one, or zero
when the header is absent.  (Header-to-integer parsing is the `http`/`std`
library layer; its failure cases surface as `ParsingResponseHeader` /
`ParsingInt` errors before this computation.) -/
def connectionIdFromHeader : Option Nat → Nat
  | some id => id + 1
  | none => 0

/-! ## Penalty score (src/node.rs, `Node::penalty`) -/

/-- Models `f64::powf` by exact rational exponentiation.  The model is exact
on nonnegative integer exponents — the only exponents the verified penalty
scenarios produce; other exponents are outside the model. -/
def powf (base exponent : ℚ) : ℚ :=
  if exponent.den = 1 ∧ 0 ≤ exponent.num then base ^ exponent.num.toNat else 0

/-- The Rust `as i32` cast from `f64`: truncation toward zero (all values the
claims exercise are small and positive, far from the saturation bounds). -/
def truncToI32 (q : ℚ) : Int := Int.tdiv q.num (q.den : Int)

/-- `Node::penalty`: the playing-player count plus exponential penalties for
host CPU load, frame deficit rate and (double-weighted) nulled-frame rate,
each truncated to `i32` before summing. -/
def penalty (stats : Stats) : Int :=
  let cpu := powf (1.05 : ℚ) (100 * stats.cpu.system_load) * 10 - 10
  let deficit_frame :=
    powf (1.03 : ℚ)
        (500 * ((((stats.frames.map StatsFrames.deficit).getD 0 : Int) : ℚ) / 3000)) * 300
      - 300
  let null_frame :=
    (powf (1.03 : ℚ)
        (500 * ((((stats.frames.map StatsFrames.nulled).getD 0 : Int) : ℚ) / 3000)) * 300
      - 300) * 2
  (stats.playing_players : Int) + truncToI32 cpu + truncToI32 deficit_frame
    + truncToI32 null_frame

/-! ## The player store (external collaborator)

Modelled from the spec: the per-session player container (`PlayerManager`,
outside src) is a shared map keyed by guild id offering lookup-or-create,
removal, and mutators for playback time, position, paused flag, volume and
filter settings.  It is embedded as an association list; only the fields the
core writes are modelled. -/

structure Player where
  time : Int
  position : Option Int
  paused : Bool
  volume : Int
  filters : Filters
deriving DecidableEq, Repr

abbrev PlayerManager := List (GuildId × Player)

/-- `PlayerManager::remove`. -/
def PlayerManager.remove (players : PlayerManager) (guild_id : GuildId) : PlayerManager :=
  players.filter fun entry => entry.1 != guild_id

/-- Store a player under a guild id, overwriting any existing entry. -/
def PlayerManager.set (players : PlayerManager) (guild_id : GuildId) (player : Player) :
    PlayerManager :=
  match players with
  | [] => [(guild_id, player)]
  | (g, p) :: rest =>
    if g = guild_id then (g, player) :: rest
    else (g, p) :: PlayerManager.set rest guild_id player

/-- Modelled from the spec: the initial field values of a player created by
`PlayerManager::get_or_insert` live outside src; they are irrelevant below
because `provide_player_update` immediately overwrites every modelled field. -/
def Player.fresh : Player :=
  { time := 0, position := none, paused := false, volume := 0,
    filters := ⟨none, none, none, none, none, none⟩ }

/-- `Node::provide_player_update`: if the update explicitly marks the player
destroyed, return `Ok` at once; otherwise resolve the player by guild id
(creating one if absent) and overwrite its time, position, paused, volume and
filters with the update's values.  The source mutates the shared store in
place; the model returns the updated store explicitly. -/
def provide_player_update (players : PlayerManager) (update : PlayerUpdate) :
    Except NodeErrorKind PlayerManager :=
  if update.state.destroyed = some true then
    .ok players
  else
    let player :=
      match players.lookup update.guild_id with
      | some player => player
      | none => Player.fresh
    let player :=
      { player with
        time := update.state.time
        position := update.state.position
        paused := update.state.paused
        volume := update.state.volume
        filters := update.state.filters }
    .ok (PlayerManager.set players update.guild_id player)

/-! ## The connection worker (src/node.rs, `Connection`)

`Connection::run` repeatedly races the next inbound socket item against the
next queued outgoing command; we embed one loop iteration as a step function
over the worker's mutable state (the player store reference and the shared
stats cell).  A `text` frame is carried together with its serde decode result
(`none` = malformed payload): the JSON text primitive is external per the
spec's scope, and no claim depends on the incoming decode dispatch itself. -/

/-- One websocket message, as `Connection::incoming` distinguishes them. -/
inductive WsMessage where
  | close
  | ping (data : List Nat)
  | pong (data : List Nat)
  | text (decoded : Option IncomingEvent)
  | binary
deriving DecidableEq, Repr

/-- A message the worker writes back to the socket. -/
inductive OutMessage where
  | close
  | pong (data : List Nat)
  | text (payload : Json)

/-- The worker-visible mutable state: the shared player store and the shared
stats cell created in `Node::connect`. -/
structure ConnState where
  players : PlayerManager
  stats : Stats

/-- The zeroed `Stats` record `Node::connect` installs in the shared cell. -/
def initialStats : Stats :=
  { cpu := { cores := 0, lavalink_load := 0, system_load := 0 },
    frames := none,
    memory := { allocated := 0, free := 0, used := 0, reservable := 0 },
    players := 0,
    playing_players := 0,
    op := .stats,
    uptime := 0 }

/-- `Connection::incoming`: handle one inbound message.  Returns the updated
state, the messages written back to the socket (the source ignores their send
errors with `let _ = ...`), the event offered to subscribers, and the `bool`
the source returns — `false` exactly for a Close frame, `true` otherwise. -/
def Connection.incoming (s : ConnState) (msg : WsMessage) :
    Except NodeErrorKind (ConnState × List OutMessage × Option IncomingEvent × Bool) :=
  match msg with
  | .close => .ok (s, [.close], none, false)
  | .ping data => .ok (s, [.pong data], none, true)
  | .text none => .ok (s, [], none, true)
  | .text (some event) =>
    match event with
    | .playerUpdate update =>
      match provide_player_update s.players update with
      | .ok players => .ok ({ s with players }, [], some event, true)
      | .error e => .error e
    | .playerDestroy destroy =>
      .ok ({ s with players := PlayerManager.remove s.players destroy.guild_id },
        [], some event, true)
    | .stats stats => .ok ({ s with stats }, [], some event, true)
    | _ => .ok (s, [], some event, true)
  | .pong _ => .ok (s, [], none, true)
  | .binary => .ok (s, [], none, true)

/-- What the `select` in `Connection::run` resolved to: an item from the
socket stream (`none` = stream exhausted, `Except.error` = socket error) or
an item from the outgoing queue (`none` = all senders dropped). -/
inductive WorkerInput where
  | socket (item : Option (Except Unit WsMessage))
  | queue (item : Option OutgoingEvent)

/-- What one loop iteration decides to do next. -/
inductive StepAction where
  | continueOpen (sent : List OutMessage) (forwarded : Option IncomingEvent)
  | reconnectNewSocket
  | finish
  | fail (e : NodeErrorKind)

/-- One iteration of `Connection::run`'s loop.  A delivered message is passed
to `incoming`, whose returned `bool` the source DISCARDS
(`self.incoming(incoming, node.clone()).await?;`), so the loop stays on the
same socket for every `Ok` outcome of `incoming`; only a socket error or
stream exhaustion takes the `reconnect` branch.  Serialization of an outgoing
event is total on these types (modelled by `OutgoingEvent.toJson`; the
`SerializingMessage` error path is unreachable), and the source `unwrap`s the
socket send, so a queued command always becomes a sent text frame. -/
def Connection.runStep (s : ConnState) (input : WorkerInput) : ConnState × StepAction :=
  match input with
  | .socket (some (.ok msg)) =>
    match Connection.incoming s msg with
    | .ok (s', sent, forwarded, _keepGoing) => (s', .continueOpen sent forwarded)
    | .error e => (s, .fail e)
  | .socket _ => (s, .reconnectNewSocket)
  | .queue (some outgoing) => (s, .continueOpen [.text outgoing.toJson] none)
  | .queue none => (s, .finish)

/-- The state reached after a sequence of loop iterations. -/
def stepState (s : ConnState) (input : WorkerInput) : ConnState :=
  (Connection.runStep s input).1

def runTrace (inputs : List WorkerInput) (start : ConnState) : ConnState :=
  inputs.foldl stepState start

/-- The `Stats` payload delivered by a loop input, when it is a successfully
decoded `Stats` event. -/
def statsEventOf : WorkerInput → Option Stats
  | .socket (some (.ok (.text (some (.stats st))))) => some st
  | _ => none

/-- The payload of the last delivered, successfully decoded `Stats` event in
a trace, if any. -/
def lastStats : List WorkerInput → Option Stats
  | [] => none
  | input :: rest =>
    match lastStats rest with
    | some st => some st
    | none => statsEventOf input

/-! ## Concrete scenario values used by the claim theorems -/

/-- What untagged decoding makes of a serialized `OutgoingEvent`: the
`VoiceUpdate` shape is reached only by `VoiceUpdate` itself, while every
other variant is absorbed by `GetPlayer` (the first later shape, which only
requires `op` and `guildId` and ignores unknown fields). -/
def OutgoingEvent.roundTripImage : OutgoingEvent → OutgoingEvent
  | .voiceUpdate v => .voiceUpdate v
  | e => .getPlayer { op := e.op, guild_id := e.guild_id }

/-- A config with a resume policy whose stored resume id is 5. -/
def c4Config : NodeConfig :=
  { user_id := 2, address := "node", authorization := "secret",
    resume := some { timeout := 60, connection_id := some 5 } }

/-- The stats snapshot with full host CPU load and no frame statistics. -/
def c6LoadedStats : Stats :=
  { initialStats with cpu := { cores := 0, lavalink_load := 0, system_load := 1 } }

/-- A player update explicitly marked destroyed. -/
def c7Update : PlayerUpdate :=
  { op := .playerUpdate, guild_id := 3, user_id := none,
    state :=
      { time := 1, position := some 2, paused := false, volume := 100,
        filters := ⟨none, none, none, none, none, none⟩, destroyed := some true,
        mixer := none, mixer_enabled := none, frame := none } }

/-! # Theorems -/

/-! ## Helper lemmas -/

/-- Every opcode decodes back from its wire name. -/
theorem opcode_decode_encode (op : Opcode) : Opcode.fromJson? op.toJson = some op := by
  cases op <;> rfl

/-- A guild id decodes back from its JSON form. -/
theorem guildId_decode_encode (g : GuildId) : guildIdFromJson? (guildIdToJson g) = some g := by
  simp [guildIdFromJson?, guildIdToJson, Json.asNat?, Rat.num_natCast, Rat.den_natCast]

/-- A serialized `VoiceUpdate` decodes back to itself (its shape carries the
`sessionId` and `event` fields no other variant has). -/
theorem voiceUpdate_decode_encode (v : VoiceUpdate) :
    VoiceUpdate.fromJson? v.toJson = some v := by
  obtain ⟨op, sid, gid, ev⟩ := v
  obtain ⟨endpoint, token⟩ := ev
  cases endpoint <;>
    simp [VoiceUpdate.fromJson?, VoiceUpdate.toJson, SlimVoiceServerUpdate.fromJson?,
      SlimVoiceServerUpdate.toJson, parseOptField, Json.asStr?, Json.getField?, List.lookup,
      opcode_decode_encode, guildId_decode_encode]

/-- A serialized `GetPlayer` decodes back to itself. -/
theorem getPlayer_decode_encode (g : GetPlayer) :
    GetPlayer.fromJson? g.toJson = some g := by
  obtain ⟨op, gid⟩ := g
  simp [GetPlayer.fromJson?, GetPlayer.toJson, Json.getField?, List.lookup,
    opcode_decode_encode, guildId_decode_encode]

/-- The `VoiceUpdate` shape rejects a serialized `GetPlayer` (no `sessionId`). -/
theorem voiceUpdate_rejects_getPlayer (g : GetPlayer) :
    VoiceUpdate.fromJson? g.toJson = none := by
  obtain ⟨op, gid⟩ := g
  simp [VoiceUpdate.fromJson?, GetPlayer.toJson, Json.getField?, List.lookup,
    opcode_decode_encode]

/-- The `GetPlayer` shape accepts a serialized `Play`, keeping only its `op`
and `guildId` and ignoring the remaining fields. -/
theorem getPlayer_absorbs_play (p : Play) :
    GetPlayer.fromJson? p.toJson = some { op := p.op, guild_id := p.guild_id } := by
  obtain ⟨op, gid, track, st, et, nr⟩ := p
  cases st <;> cases et <;>
    simp [GetPlayer.fromJson?, Play.toJson, Json.getField?, List.lookup, optField,
      List.cons_append, List.nil_append, opcode_decode_encode, guildId_decode_encode]

/-- The `VoiceUpdate` shape rejects a serialized `Play` (no `sessionId`). -/
theorem voiceUpdate_rejects_play (p : Play) : VoiceUpdate.fromJson? p.toJson = none := by
  obtain ⟨op, gid, track, st, et, nr⟩ := p
  cases st <;> cases et <;>
    simp [VoiceUpdate.fromJson?, Play.toJson, Json.getField?, List.lookup, optField,
      List.cons_append, List.nil_append, opcode_decode_encode]

/-- The `GetPlayer` shape accepts a serialized `Stop`. -/
theorem getPlayer_absorbs_stop (s : Stop) :
    GetPlayer.fromJson? s.toJson = some { op := s.op, guild_id := s.guild_id } := by
  obtain ⟨op, gid⟩ := s
  simp [GetPlayer.fromJson?, Stop.toJson, Json.getField?, List.lookup,
    opcode_decode_encode, guildId_decode_encode]

/-- The `VoiceUpdate` shape rejects a serialized `Stop`. -/
theorem voiceUpdate_rejects_stop (s : Stop) : VoiceUpdate.fromJson? s.toJson = none := by
  obtain ⟨op, gid⟩ := s
  simp [VoiceUpdate.fromJson?, Stop.toJson, Json.getField?, List.lookup,
    opcode_decode_encode]

/-- The `GetPlayer` shape accepts a serialized `Update`. -/
theorem getPlayer_absorbs_update (u : Update) :
    GetPlayer.fromJson? u.toJson = some { op := u.op, guild_id := u.guild_id } := by
  obtain ⟨op, gid, pause, pos, vol, fil⟩ := u
  cases pause <;> cases pos <;> cases vol <;> cases fil <;>
    simp [GetPlayer.fromJson?, Update.toJson, Json.getField?, List.lookup, optField,
      List.cons_append, List.nil_append, opcode_decode_encode, guildId_decode_encode]

/-- The `VoiceUpdate` shape rejects a serialized `Update`. -/
theorem voiceUpdate_rejects_update (u : Update) : VoiceUpdate.fromJson? u.toJson = none := by
  obtain ⟨op, gid, pause, pos, vol, fil⟩ := u
  cases pause <;> cases pos <;> cases vol <;> cases fil <;>
    simp [VoiceUpdate.fromJson?, Update.toJson, Json.getField?, List.lookup, optField,
      List.cons_append, List.nil_append, opcode_decode_encode]

/-- The `GetPlayer` shape accepts a serialized `Destroy`. -/
theorem getPlayer_absorbs_destroy (d : Destroy) :
    GetPlayer.fromJson? d.toJson = some { op := d.op, guild_id := d.guild_id } := by
  obtain ⟨op, gid⟩ := d
  simp [GetPlayer.fromJson?, Destroy.toJson, Json.getField?, List.lookup,
    opcode_decode_encode, guildId_decode_encode]

/-- The `VoiceUpdate` shape rejects a serialized `Destroy`. -/
theorem voiceUpdate_rejects_destroy (d : Destroy) : VoiceUpdate.fromJson? d.toJson = none := by
  obtain ⟨op, gid⟩ := d
  simp [VoiceUpdate.fromJson?, Destroy.toJson, Json.getField?, List.lookup,
    opcode_decode_encode]

/-- `truncToI32` agrees with the floor on nonnegative rationals. -/
theorem truncToI32_eq_floor (q : ℚ) (h : 0 ≤ q) : truncToI32 q = ⌊q⌋ := by
  rw [truncToI32, Rat.floor_def]
  exact Int.tdiv_eq_ediv (Rat.num_nonneg.mpr h) (Int.natCast_nonneg _)

/-- One worker step changes the stats cell exactly when the input is a
decoded `Stats` event, and then to that event's whole payload. -/
theorem stepState_stats (s : ConnState) (input : WorkerInput) :
    (stepState s input).stats = (statsEventOf input).getD s.stats := by
  cases input with
  | queue item => cases item <;> rfl
  | socket item =>
    cases item with
    | none => rfl
    | some r =>
      cases r with
      | error e => rfl
      | ok msg =>
        cases msg with
        | close => rfl
        | ping d => rfl
        | pong d => rfl
        | binary => rfl
        | text dec =>
          cases dec with
          | none => rfl
          | some ev =>
            cases ev with
            | playerUpdate u =>
              simp only [stepState, Connection.runStep, Connection.incoming]
              cases provide_player_update s.players u <;> rfl
            | stats st => rfl
            | trackEnd d => rfl
            | trackStart d => rfl
            | trackException d => rfl
            | trackStuck d => rfl
            | websocketClose d => rfl
            | playerDestroy d => rfl

/-- Along any trace of worker inputs, the stats cell holds the payload of the
last processed `Stats` event, or the starting contents if none occurred. -/
theorem runTrace_stats (inputs : List WorkerInput) (s : ConnState) :
    (runTrace inputs s).stats = (lastStats inputs).getD s.stats := by
  induction inputs generalizing s with
  | nil => rfl
  | cons input rest ih =>
    have h1 : runTrace (input :: rest) s = runTrace rest (stepState s input) := rfl
    rw [h1, ih, lastStats]
    cases hrest : lastStats rest with
    | some st => rfl
    | none => simp [stepState_stats]

/-! ## Claim theorems -/

/-- C1, counterexample: after 7 consecutive retryable connect failures the
backoff procedure has NOT returned a terminal `Connecting` error; it has
slept a 7th time, for 64 time units (the guard is `seconds > 64`, checked
before the sleep, so the 64-unit wait is still taken). -/
theorem C1_counterexample :
    backoff (List.replicate 7 ConnectOutcome.otherFailure) = (none, [1, 2, 4, 8, 16, 32, 64])
    ∧ (backoff (List.replicate 7 ConnectOutcome.otherFailure)).1 ≠ some BackoffResult.connecting
    ∧ (backoff (List.replicate 7 ConnectOutcome.otherFailure)).2.length = 7 := by
  decide

/-- C1, amended: for N ≤ 7 consecutive retryable connect failures the waits
slept between attempts are 1, 2, 4, ..., 2^(N-1) time units, and it is the
8th consecutive retryable failure that makes the procedure return a terminal
`Connecting` error without any further sleep. -/
theorem C1_amended (N : Nat) (hN : N ≤ 7) (rest : List ConnectOutcome) :
    backoff (List.replicate N ConnectOutcome.otherFailure ++ ConnectOutcome.ok :: rest)
      = (some BackoffResult.connected, (List.range N).map fun i => 2 ^ i)
    ∧ backoff (List.replicate 8 ConnectOutcome.otherFailure ++ rest)
      = (some BackoffResult.connecting, [1, 2, 4, 8, 16, 32, 64]) := by
  constructor
  · interval_cases N <;> rfl
  · rfl

/-- C1, witness for the amended claim at N = 7. -/
theorem C1_amended_witness :
    backoff (List.replicate 7 ConnectOutcome.otherFailure ++ ConnectOutcome.ok :: [])
      = (some BackoffResult.connected, (List.range 7).map fun i => 2 ^ i)
    ∧ backoff (List.replicate 8 ConnectOutcome.otherFailure ++ [])
      = (some BackoffResult.connecting, [1, 2, 4, 8, 16, 32, 64]) :=
  C1_amended 7 (by decide) []

/-- C2, counterexample: serializing `Stop::new(1)` and decoding the result
through the untagged `OutgoingEvent` deserializer yields the `GetPlayer`
variant (with the original `op` and `guildId`), not the original `Stop`
value, so the round trip is not the identity. -/
theorem C2_counterexample :
    OutgoingEvent.fromJson? (OutgoingEvent.toJson (.stop (Stop.new 1)))
        = some (.getPlayer { op := .stop, guild_id := 1 })
    ∧ OutgoingEvent.getPlayer { op := .stop, guild_id := 1 }
        ≠ OutgoingEvent.stop (Stop.new 1) := by
  constructor
  · rfl
  · decide

/-- C2, amended: serialization is total, and decoding a serialized
`OutgoingEvent` back through the untagged deserializer recovers the original
value for the `VoiceUpdate` and `GetPlayer` variants; every other variant
decodes to the `GetPlayer` variant carrying the original event's `op` and
`guildId`, because serde tries the variant shapes in declaration order and
the `GetPlayer` shape (only `op` and `guildId` required, unknown fields
ignored) matches every non-`VoiceUpdate` serialization. -/
theorem C2_amended (e : OutgoingEvent) :
    OutgoingEvent.fromJson? e.toJson = some e.roundTripImage := by
  cases e with
  | voiceUpdate v =>
    simp [OutgoingEvent.fromJson?, OutgoingEvent.toJson, OutgoingEvent.roundTripImage,
      voiceUpdate_decode_encode]
  | getPlayer g =>
    simp [OutgoingEvent.fromJson?, OutgoingEvent.toJson, OutgoingEvent.roundTripImage,
      OutgoingEvent.op, OutgoingEvent.guild_id, voiceUpdate_rejects_getPlayer,
      getPlayer_decode_encode]
  | play p =>
    simp [OutgoingEvent.fromJson?, OutgoingEvent.toJson, OutgoingEvent.roundTripImage,
      OutgoingEvent.op, OutgoingEvent.guild_id, voiceUpdate_rejects_play,
      getPlayer_absorbs_play]
  | stop s =>
    simp [OutgoingEvent.fromJson?, OutgoingEvent.toJson, OutgoingEvent.roundTripImage,
      OutgoingEvent.op, OutgoingEvent.guild_id, voiceUpdate_rejects_stop,
      getPlayer_absorbs_stop]
  | update u =>
    simp [OutgoingEvent.fromJson?, OutgoingEvent.toJson, OutgoingEvent.roundTripImage,
      OutgoingEvent.op, OutgoingEvent.guild_id, voiceUpdate_rejects_update,
      getPlayer_absorbs_update]
  | destroy d =>
    simp [OutgoingEvent.fromJson?, OutgoingEvent.toJson, OutgoingEvent.roundTripImage,
      OutgoingEvent.op, OutgoingEvent.guild_id, voiceUpdate_rejects_destroy,
      getPlayer_absorbs_destroy]

/-- C3, counterexample: `OutgoingEvent::op` is not fixed by the variant
alone — a `Stop`-variant event whose publicly writable `op` field was set to
`Play` reports opcode `Play`, not the `Stop` variant's canonical opcode. -/
theorem C3_counterexample :
    (OutgoingEvent.stop { op := Opcode.play, guild_id := 1 }).op = Opcode.play
    ∧ Opcode.play ≠ Opcode.stop := by
  decide

/-- C3, amended: for every `OutgoingEvent`, `op()` returns exactly the `op`
field stored in the variant's payload (which is the canonical opcode
whenever the payload was built by the provided constructors, but is freely
settable), and `guild_id()` returns exactly the guild id stored in the
variant's payload. -/
theorem C3_amended (v : VoiceUpdate) (g : GetPlayer) (p : Play) (s : Stop)
    (u : Update) (d : Destroy) :
    ((OutgoingEvent.voiceUpdate v).op = v.op ∧ (OutgoingEvent.getPlayer g).op = g.op
      ∧ (OutgoingEvent.play p).op = p.op ∧ (OutgoingEvent.stop s).op = s.op
      ∧ (OutgoingEvent.update u).op = u.op ∧ (OutgoingEvent.destroy d).op = d.op)
    ∧ ((OutgoingEvent.voiceUpdate v).guild_id = v.guild_id
      ∧ (OutgoingEvent.getPlayer g).guild_id = g.guild_id
      ∧ (OutgoingEvent.play p).guild_id = p.guild_id
      ∧ (OutgoingEvent.stop s).guild_id = s.guild_id
      ∧ (OutgoingEvent.update u).guild_id = u.guild_id
      ∧ (OutgoingEvent.destroy d).guild_id = d.guild_id) :=
  ⟨⟨rfl, rfl, rfl, rfl, rfl, rfl⟩, rfl, rfl, rfl, rfl, rfl, rfl⟩

/-- C4, counterexample: with a resume policy configured (stored resume id 5)
and the server reporting prior id 5, the assigned connection id is 6, but the
handshake request of the next reconnect (built from the same immutable
config) carries resume-id header value "5" — the assigned id is never
written back into the config, so it is not the value carried in the
`Andesite-Resume-Id` header. -/
theorem C4_counterexample :
    connectionIdFromHeader (some 5) = 6
    ∧ (connect_request c4Config).lookup "Andesite-Resume-Id" = some "5"
    ∧ toString (connectionIdFromHeader (some 5)) ≠ "5" := by
  refine ⟨rfl, rfl, ?_⟩
  decide

/-- C4, amended: the connection id assigned at handshake is the
server-reported prior id plus one, or zero if no header is present; the
resume-id header on a (re)connect handshake request carries exactly the
connection id stored in the config's resume policy (when one is stored), a
value never updated with the newly assigned id. -/
theorem C4_amended (n : Nat) (cfg : NodeConfig) :
    connectionIdFromHeader (some n) = n + 1
    ∧ connectionIdFromHeader none = 0
    ∧ (connect_request cfg).lookup "Andesite-Resume-Id"
        = (cfg.resume.bind Resume.connection_id).map toString := by
  refine ⟨rfl, rfl, ?_⟩
  obtain ⟨uid, addr, auth, resume⟩ := cfg
  match resume with
  | none => rfl
  | some ⟨t, none⟩ => rfl
  | some ⟨t, some cid⟩ => rfl

/-- C5 (code bug): on a Close frame the worker echoes a close frame back and
`Connection::incoming` returns `false` — its signal to stop — but
`Connection::run` discards that boolean, so the very next step keeps polling
the same (closed) socket in the open-state loop instead of reconnecting; the
reconnect branch is taken only when the socket stream itself ends or
errors. -/
theorem C5_close_frame (s : ConnState) :
    Connection.incoming s WsMessage.close = .ok (s, [OutMessage.close], none, false)
    ∧ Connection.runStep s (WorkerInput.socket (some (.ok WsMessage.close)))
        = (s, StepAction.continueOpen [OutMessage.close] none)
    ∧ Connection.runStep s (WorkerInput.socket none) = (s, StepAction.reconnectNewSocket) :=
  ⟨rfl, rfl, rfl⟩

/-- C6: the penalty of the zeroed snapshot (no playing players, zero system
load, no frame statistics) is 0, and with system load 1.0 (and still no
frame statistics) it is the floor of 1.05^100 * 10 - 10 (= 1305), computing
the `f64` arithmetic as exact rationals. -/
theorem C6_penalty :
    penalty initialStats = 0
    ∧ penalty c6LoadedStats = Int.floor ((1.05 : ℚ) ^ (100 : ℕ) * 10 - 10) := by
  constructor
  · norm_num [penalty, powf, truncToI32, initialStats]
  · have h : penalty c6LoadedStats = truncToI32 ((1.05 : ℚ) ^ (100 : ℕ) * 10 - 10) := by
      norm_num [penalty, powf, truncToI32, c6LoadedStats, initialStats]
      norm_num [show Int.toNat 100 = 100 from rfl]
    rw [h, truncToI32_eq_floor]
    norm_num

/-- C7: a `PlayerUpdate` explicitly marked destroyed leaves the session
store completely unchanged — no entry created, no field mutated, whatever
the store's contents (including when no session exists for the guild id) —
and the call returns `Ok`. -/
theorem C7_destroyed_noop (players : PlayerManager) (update : PlayerUpdate)
    (h : update.state.destroyed = some true) :
    provide_player_update players update = .ok players := by
  simp [provide_player_update, h]

/-- C7, witness: the destroyed update applied to the empty store. -/
theorem C7_destroyed_noop_witness :
    c7Update.state.destroyed = some true
    ∧ provide_player_update [] c7Update = .ok [] :=
  ⟨rfl, C7_destroyed_noop [] c7Update rfl⟩

/-- C8: starting from the zeroed `Stats` record installed at connect time,
after any trace of worker-loop inputs the shared stats cell holds either
that zeroed initial record or exactly the payload of the most recently
processed `Stats` event; and a `Stats` event updates the cell by one
whole-record replacement. -/
theorem C8_stats_cell (inputs : List WorkerInput) (players0 : PlayerManager)
    (s : ConnState) (st : Stats) :
    (runTrace inputs { players := players0, stats := initialStats }).stats
        = (lastStats inputs).getD initialStats
    ∧ Connection.incoming s (.text (some (.stats st)))
        = .ok ({ s with stats := st }, [], some (.stats st), true) :=
  ⟨runTrace_stats inputs _, rfl⟩

/-- C9: an HTTP 401 authorization failure short-circuits the backoff loop at
any attempt (first or any later retry): `backoff` returns `Unauthorized`
immediately, with no sleep after the failing attempt and no further connect
attempt (the rest of the schedule is never consulted); the sleeps performed
are exactly those of the k earlier retryable failures. -/
theorem C9_unauthorized (k : Nat) (rest : List ConnectOutcome) (hk : k ≤ 7) :
    backoff (List.replicate k ConnectOutcome.otherFailure ++ ConnectOutcome.authFailure :: rest)
      = (some BackoffResult.unauthorized, (List.range k).map fun i => 2 ^ i) := by
  interval_cases k <;> rfl

/-- C9, witness: authorization failure on the third attempt. -/
theorem C9_unauthorized_witness :
    backoff (List.replicate 2 ConnectOutcome.otherFailure
        ++ ConnectOutcome.authFailure :: [])
      = (some BackoffResult.unauthorized, (List.range 2).map fun i => 2 ^ i) :=
  C9_unauthorized 2 [] (by decide)

/-- C10: every outgoing event built through the provided constructors
carries the opcode canonically matching its variant, so `OutgoingEvent::op`
returns that canonical opcode for all constructor-built values, whatever the
other arguments. -/
theorem C10_constructor_opcodes (gid : GuildId) (sid : String)
    (ev : SlimVoiceServerUpdate) (track : String) (st et : Option Nat) (nr : Bool)
    (pause : Option Bool) (pos vol : Option Int) (fil : Option Filters) :
    (OutgoingEvent.voiceUpdate (VoiceUpdate.new gid sid ev)).op = Opcode.voiceUpdate
    ∧ (OutgoingEvent.getPlayer (GetPlayer.new gid)).op = Opcode.getPlayer
    ∧ (OutgoingEvent.play (Play.new gid track)).op = Opcode.play
    ∧ (OutgoingEvent.play (Play.new_complex gid track st et nr)).op = Opcode.play
    ∧ (OutgoingEvent.stop (Stop.new gid)).op = Opcode.stop
    ∧ (OutgoingEvent.update (Update.new gid pause pos vol fil)).op = Opcode.update
    ∧ (OutgoingEvent.destroy (Destroy.new gid)).op = Opcode.destroy :=
  ⟨rfl, rfl, rfl, rfl, rfl, rfl, rfl⟩

end TwilightAndesite
